import Mathlib

/-
Verification of the tab-group drag-and-drop layout engine
(TabContainer.jsx and the ShopGenerator persistence glue).

The definitions below are a shallow embedding of the JavaScript source:
pixel coordinates are modelled as integers, JavaScript NaN and null are
modelled as Option.none of the corresponding type, and the DOM event
handlers become pure functions from their inputs (pointer position,
cached geometry, dataTransfer payload, component state) to the values
they compute and the callbacks they invoke.
-/

namespace TabDnD

/-- Drop indicator state handed to onDropIndicatorChange: for each field,
some g means the indicator is armed for group index g, none models null. -/
structure DropIndicatorState where
  leftGroup : Option Int
  rightGroup : Option Int
  betweenGroups : Option Int
deriving DecidableEq, Repr

/-- Distance from a container edge below which a split indicator arms
(TabContainer.jsx line 86: const edgeThreshold = 40). -/
def edgeThreshold : Int := 40

/-- Embedding of the indicator computation in handleDragOver
(TabContainer.jsx lines 157-172), reached when mouseY is inside the
container vertical bounds. distanceFromLeft is mouseX minus the container
left edge, distanceFromRight is the right edge minus mouseX, and each of
the three fields is set to the group index exactly when its guard from the
source holds. -/
def computeIndicators (isOverHeader isFirstGroup isLastGroup : Bool)
    (mouseX containerLeft containerRight : Int) (groupIndex : Int) :
    DropIndicatorState :=
  let distanceFromLeft := mouseX - containerLeft
  let distanceFromRight := containerRight - mouseX
  { leftGroup :=
      if !isOverHeader && isFirstGroup && decide (distanceFromLeft < edgeThreshold)
      then some groupIndex else none
    rightGroup :=
      if !isOverHeader && isLastGroup && decide (distanceFromRight < edgeThreshold)
      then some groupIndex else none
    betweenGroups :=
      if !isOverHeader &&
          ((!isFirstGroup && decide (distanceFromLeft < edgeThreshold)) ||
           (!isLastGroup && decide (distanceFromRight < edgeThreshold)))
      then some groupIndex else none }

/-- Number of armed (non-null) fields of an indicator state. -/
def armedCount (s : DropIndicatorState) : Nat :=
  (if s.leftGroup.isSome then 1 else 0) +
  (if s.rightGroup.isSome then 1 else 0) +
  (if s.betweenGroups.isSome then 1 else 0)

/-- Content of the JSON blob stored under the tabInfo dataTransfer entry
at drag start (TabContainer.jsx lines 135-139). -/
structure TabInfo where
  typeName : String
  index : Int
  key : String
deriving DecidableEq, Repr

/-- Values the drop handler reads from the dataTransfer
(TabContainer.jsx lines 240-242). parseInt of a missing or non-numeric
entry yields NaN, modelled as none; JSON.parse of the tabInfo entry
throws on a missing or unparsable value, modelled as none. -/
structure DropPayload where
  sourceIndexField : Option Int
  sourceGroupField : Option Int
  tabInfoField : Option TabInfo
deriving DecidableEq, Repr

/-- Component state the drop handler consults: this group index, the
current dropIndicators, the dropIndex component state (none models null)
and the number of tabs in this group. -/
structure DropContext where
  groupIndex : Int
  indicators : DropIndicatorState
  dropIndex : Option Int
  tabsLen : Nat
deriving DecidableEq, Repr

/-- JavaScript strict inequality a !== b where a may be NaN (none):
NaN compares unequal to every value, itself included. -/
def jsNumNeq : Option Int → Int → Bool
  | none, _ => true
  | some a, b => a != b

/-- JavaScript strict inequality sourceIndex !== dropIndex where the left
side may be NaN (none) and the right side may be null (none): NaN is
unequal to everything and a number is unequal to null. -/
def jsNumNeqOrNull : Option Int → Option Int → Bool
  | none, _ => true
  | some _, none => true
  | some a, some b => a != b

/-- The mutation callback a drop resolves to, mirroring which of
onTabSplit and onTabMove handleDrop invokes and with which arguments
(TabContainer.jsx lines 254-272); noop models the fall-through where no
callback runs. -/
inductive DropAction where
  | splitBetween (info : TabInfo) (sourceGroup : Option Int) (targetGroup : Int)
  | splitEdge (info : TabInfo) (sourceGroup : Option Int) (isRightEdge : Bool)
  | moveAcross (targetIndex : Int) (sourceGroup : Option Int) (targetGroup : Int)
  | reorder (sourceIndex : Option Int) (dropIndex : Int) (targetGroup : Int)
  | noop
deriving DecidableEq, Repr

/-- True exactly for the within-group reorder branch. -/
def DropAction.isReorder : DropAction → Bool
  | .reorder _ _ _ => true
  | _ => false

/-- Branch selection of handleDrop after the payload parsed
(TabContainer.jsx lines 244-272): between-groups split, else left/right
edge split, else cross-group move (target index dropIndex, or tabs.length
when dropIndex is null), else within-group reorder when dropIndex is not
null and differs from sourceIndex, else nothing. -/
def resolveDrop (ctx : DropContext) (p : DropPayload) (info : TabInfo) : DropAction :=
  let wasShowingLeftIndicator := ctx.indicators.leftGroup == some ctx.groupIndex
  let wasShowingRightIndicator := ctx.indicators.rightGroup == some ctx.groupIndex
  let wasShowingBetweenIndicator := ctx.indicators.betweenGroups == some ctx.groupIndex
  if wasShowingBetweenIndicator then
    .splitBetween info p.sourceGroupField ctx.groupIndex
  else if wasShowingLeftIndicator || wasShowingRightIndicator then
    .splitEdge info p.sourceGroupField wasShowingRightIndicator
  else if jsNumNeq p.sourceGroupField ctx.groupIndex then
    .moveAcross (ctx.dropIndex.getD (Int.ofNat ctx.tabsLen)) p.sourceGroupField ctx.groupIndex
  else if jsNumNeqOrNull p.sourceIndexField ctx.dropIndex && ctx.dropIndex.isSome then
    .reorder p.sourceIndexField (ctx.dropIndex.getD 0) ctx.groupIndex
  else
    .noop

/-- Observable outcome of one handleDrop invocation: whether JSON.parse
threw (aborting the handler), whether the indicator-clearing callback at
lines 248-252 ran, and which mutation callback (if any) was invoked. -/
structure DropOutcome where
  threw : Bool
  indicatorsCleared : Bool
  action : Option DropAction
deriving DecidableEq, Repr

/-- Embedding of handleDrop (TabContainer.jsx lines 237-275). The three
dataTransfer reads happen first; JSON.parse of the tabInfo entry throws
on a missing or malformed value, which aborts the handler before the
indicator clearing and before any mutation callback. Otherwise indicators
are cleared and the first matching branch decides the action. -/
def handleDrop (ctx : DropContext) (p : DropPayload) : DropOutcome :=
  match p.tabInfoField with
  | none => { threw := true, indicatorsCleared := false, action := none }
  | some info =>
      { threw := false, indicatorsCleared := true,
        action := some (resolveDrop ctx p info) }

/-- Embedding of the reorder splice pair in handleDrop
(TabContainer.jsx lines 265-267): copy the list, splice the tab out at
index i, splice it back in at index j. Faithful for in-range indices;
for an out-of-range i the model returns the list unchanged. -/
def moveTab {α : Type} (l : List α) (i j : Nat) : List α :=
  match l[i]? with
  | none => l
  | some x => (l.eraseIdx i).insertIdx j x

/-- Session cleanup state touched by handleDragEnd
(TabContainer.jsx lines 281-289). -/
structure DragSessionState where
  dropIndex : Option Int
  dragActive : Bool
  edgeHoldActive : Bool
  windowDraggedTabSet : Bool
deriving DecidableEq, Repr

/-- Embedding of handleDragEnd (TabContainer.jsx lines 281-289): resets
dropIndex, invokes onDragEnd (closing the shared drag session), clears the
edge-hold timer handle and deletes the global dragged-tab reference.
It runs on the dragend event, which the browser fires on the drag source
after the drop handler, whether or not the drop handler threw. -/
def handleDragEnd (_s : DragSessionState) : DragSessionState :=
  { dropIndex := none, dragActive := false, edgeHoldActive := false,
    windowDraggedTabSet := false }

/-- One step of the drop-index loop in handleDragOver (TabContainer.jsx
lines 185-193): walk the cached centers from index 1 carrying the previous
center; return the first i with prevCenter <= relativeX < currentCenter
(centers taken to header-local coordinates), else the default. -/
def scanCenters (relativeX headerLeft : Int) : Int → List Int → Nat → Nat → Nat
  | _, [], _, dflt => dflt
  | prevCenter, c :: cs, i, dflt =>
    if prevCenter - headerLeft ≤ relativeX ∧ relativeX < c - headerLeft then i
    else scanCenters relativeX headerLeft c cs (i + 1) dflt

/-- Embedding of the drop-index computation in handleDragOver
(TabContainer.jsx lines 177-198): relativeX is mouseX minus the header
left edge, newDropIndex defaults to the tab count, becomes 0 when
relativeX is left of the first cached center, otherwise comes from the
window scan, and is finally clamped with Math.min to the tab count.
centers holds the cached originalPositions centers in absolute
coordinates, numTabs the length of this group. -/
def computeDropIndex (mouseX headerLeft : Int) (centers : List Int)
    (numTabs : Nat) : Nat :=
  let relativeX := mouseX - headerLeft
  let newDropIndex :=
    match centers with
    | [] => numTabs
    | c0 :: cs =>
        if relativeX < c0 - headerLeft then 0
        else scanCenters relativeX headerLeft c0 cs 1 numTabs
  min newDropIndex numTabs

/-- Index of the first center satisfying p, counting from i, with a
default when none does; used to state the claimed and the corrected
drop-index characterisations. -/
def firstCenterIdx (p : Int → Bool) : List Int → Nat → Nat → Nat
  | [], _, dflt => dflt
  | c :: cs, i, dflt => if p c then i else firstCenterIdx p cs (i + 1) dflt

/-- The drop index exactly as the claim words it: the first position whose
cached center (in header-local coordinates) is greater than or equal to
the pointer local x; 0 when the pointer is left of the first center, the
tab count when it is right of all centers. -/
def claimedDropIndex (mouseX headerLeft : Int) (centers : List Int)
    (numTabs : Nat) : Nat :=
  firstCenterIdx (fun c => decide (mouseX - headerLeft ≤ c - headerLeft))
    centers 0 numTabs

/-- State of the debounce machinery and the shared indicator state during
a drag: pendingDebounce models the setTimeout scheduled by the debounced
indicator callback (useDebounce, TabContainer.jsx lines 27-35, holding the
latest indicators), edgeHoldActive models the edgeHoldTimeout ref (line
87; it is cleared at lines 230-233 and 284-287 but no code path ever sets
it), indicators is the shared dropIndicators value written by
onDropIndicatorChange, and dragActive the drag session. -/
structure DragOverUIState where
  pendingDebounce : Option DropIndicatorState
  edgeHoldActive : Bool
  indicators : DropIndicatorState
  dragActive : Bool
deriving DecidableEq, Repr

/-- Events that touch the debounced indicator lifecycle. -/
inductive DragUIEvent where
  | dragOverSchedules (ind : DropIndicatorState)
  | dragLeaveOutside
  | dragEndEvent
  | debounceFires
deriving DecidableEq, Repr

/-- One event step, read off the source: a drag-over call replaces any
pending debounce timeout with a new one holding the latest indicators
(useDebounce lines 28-34); handleDragLeave with the pointer outside the
container clears the shared indicators immediately and clears only the
edgeHoldTimeout ref (lines 224-234), leaving the debounce timeout pending;
handleDragEnd closes the session and clears only the edgeHoldTimeout ref
(lines 281-289), also leaving the debounce timeout pending; and a pending
debounce timeout that fires applies its stored indicators through
onDropIndicatorChange without re-checking that a session is still active
(lines 32-34 with the callback of lines 97-99). -/
def stepDragUI (s : DragOverUIState) : DragUIEvent → DragOverUIState
  | .dragOverSchedules ind => { s with pendingDebounce := some ind }
  | .dragLeaveOutside =>
      { s with indicators := ⟨none, none, none⟩, edgeHoldActive := false }
  | .dragEndEvent => { s with dragActive := false, edgeHoldActive := false }
  | .debounceFires =>
      match s.pendingDebounce with
      | none => s
      | some ind => { s with indicators := ind, pendingDebounce := none }

/-- Folding a sequence of events from a starting state. -/
def runDragUI (s : DragOverUIState) (events : List DragUIEvent) : DragOverUIState :=
  events.foldl stepDragUI s

end TabDnD

namespace LayoutStore

/-- A layout is the ordered list of groups, each an ordered list of panel
keys. Width fractions play no role in panel membership and are omitted
here. -/
abbrev Layout := List (List String)

/-- Modelled from the spec: the spec section 4.1 operation
reorderWithinGroup(groupIndex, fromIndex, toIndex) of the LayoutStore,
whose implementation lives in the useTabManagement hook, a file that is
not part of the repository snapshot. Removes the panel at fromIndex and
reinserts it at toIndex within the same group; operations with an
out-of-range group or tab index are rejected and leave the store
unchanged. -/
def reorderWithinGroup (L : Layout) (g i j : Nat) : Layout :=
  match L[g]? with
  | none => L
  | some grp =>
      match grp[i]? with
      | none => L
      | some x =>
          if j < grp.length then L.set g ((grp.eraseIdx i).insertIdx j x)
          else L

/-- Modelled from the spec: the spec section 4.1 operation
moveAcrossGroups(panelKey, sourceGroupIndex, targetGroupIndex,
targetIndex) of the LayoutStore (implementation in the useTabManagement
hook, not part of the repository snapshot). Removes the panel from the
source group, inserts it into the target group at the target index
clamped to the list length, and deletes any group left empty; a request
with a non-existent panel key or out-of-range group index, or with equal
source and target groups, is rejected and leaves the store unchanged. -/
def moveAcrossGroups (L : Layout) (key : String) (sg tg ti : Nat) : Layout :=
  match L[sg]?, L[tg]? with
  | some src, some tgt =>
      if sg ≠ tg ∧ key ∈ src then
        ((L.set sg (src.erase key)).set tg
            (tgt.insertIdx (min ti tgt.length) key)).filter
          (fun grp => !grp.isEmpty)
      else L
  | _, _ => L

/-- Modelled from the spec: the spec section 4.1 operation
splitGroup(panelKey, sourceGroupIndex, side) of the LayoutStore
(implementation in the useTabManagement hook, not part of the repository
snapshot). Removes the panel from its source group (deleting the group if
it becomes empty) and inserts a brand-new single-panel group into the
layout; pos generalises the side to the insertion position (0 for the
left edge, the group count for the right edge, a boundary position for a
between-groups split), clamped to the layout length. Requests naming an
absent panel or group are rejected. -/
def splitGroup (L : Layout) (key : String) (sg pos : Nat) : Layout :=
  match L[sg]? with
  | none => L
  | some src =>
      if key ∈ src then
        let L1 := (L.set sg (src.erase key)).filter (fun grp => !grp.isEmpty)
        L1.insertIdx (min pos L1.length) [key]
      else L

/-- One LayoutStore mutation. -/
inductive LayoutOp where
  | reorder (g i j : Nat)
  | move (key : String) (sg tg ti : Nat)
  | split (key : String) (sg pos : Nat)
deriving DecidableEq, Repr

/-- Apply one operation. -/
def applyOp (L : Layout) : LayoutOp → Layout
  | .reorder g i j => reorderWithinGroup L g i j
  | .move key sg tg ti => moveAcrossGroups L key sg tg ti
  | .split key sg pos => splitGroup L key sg pos

/-- Apply a sequence of operations in order. -/
def applyOps (L : Layout) (ops : List LayoutOp) : Layout :=
  ops.foldl applyOp L

/-- The multiset of all panel keys of a layout. -/
def keyBag (L : Layout) : Multiset String := (L.flatten : Multiset String)

end LayoutStore

namespace Persist

/-- JSON values as produced by JSON.parse: the possible results of
parsing the persisted tab-state blob. -/
inductive Json where
  | null
  | bool (b : Bool)
  | num (n : Int)
  | str (s : String)
  | arr (elements : List Json)
  | obj (fields : List (String × Json))

/-- JavaScript truthiness of a parsed JSON value. -/
def Json.truthy : Json → Bool
  | .null => false
  | .bool b => b
  | .num n => n != 0
  | .str s => s != ""
  | .arr _ => true
  | .obj _ => true

/-- Property read x.name on a parsed JSON value: a field of an object
(last duplicate wins, as in JSON.parse), undefined (none) otherwise. -/
def Json.getField : Json → String → Option Json
  | .obj fields, name => fields.reverse.lookup name
  | _, _ => none

/-- Array.isArray on a possibly-undefined value. -/
def jsonIsArray : Option Json → Bool
  | some (Json.arr _) => true
  | _ => false

/-- The check typeof x === the string for strings, on a possibly-undefined
value. -/
def jsonIsString : Option Json → Bool
  | some (Json.str _) => true
  | _ => false

/-- The check typeof x === the string for objects: true for JSON objects,
arrays and null. -/
def jsTypeofObject : Json → Bool
  | .obj _ => true
  | .arr _ => true
  | .null => true
  | _ => false

/-- The fixed tab type identifier set, in Object.keys order
(TabContainer.jsx lines 491-497). -/
def TAB_TYPE_IDENTIFIERS : List String :=
  ["Tab_Parameters", "Tab_InventoryTable", "Tab_ChooseShop",
   "Tab_ShopDetails", "Tab_AiAssistant"]

/-- Per-tab structural validation from the loading effect
(TabContainer.jsx lines 832-838): tab is truthy, typeof tab is object,
and both tab.type and tab.key are strings. -/
def validTabStructure (tab : Json) : Bool :=
  tab.truthy && jsTypeofObject tab &&
  jsonIsString (tab.getField "type") && jsonIsString (tab.getField "key")

/-- Per-tab type validation from the loading effect (lines 847-858):
tab.type is a member of the fixed identifier set. A non-string tab.type
never equals any identifier under strict equality. -/
def validTabType (tab : Json) : Bool :=
  match tab.getField "type" with
  | some (Json.str s) => TAB_TYPE_IDENTIFIERS.contains s
  | _ => false

/-- Groups array of a parsed blob, empty when absent or not an array. -/
def jsonGroups (parsed : Json) : List Json :=
  match parsed.getField "groups" with
  | some (Json.arr gs) => gs
  | _ => []

/-- Widths array of a parsed blob, empty when absent or not an array. -/
def jsonWidths (parsed : Json) : List Json :=
  match parsed.getField "widths" with
  | some (Json.arr ws) => ws
  | _ => []

/-- Every group is an array whose members all pass the per-tab structure
check (lines 832-838). -/
def validGroupsStructure (groups : List Json) : Bool :=
  groups.all fun g =>
    match g with
    | Json.arr tabs => tabs.all validTabStructure
    | _ => false

/-- Every tab of every group carries a known type identifier (lines
847-858). The loading effect only evaluates this after the structure
check passed, so every group is an array there; a non-array group is
mapped to false, matching the try/catch fallback the code would take. -/
def validGroupsTypes (groups : List Json) : Bool :=
  groups.all fun g =>
    match g with
    | Json.arr tabs => tabs.all validTabType
    | _ => false

/-- Data content of one mounted tab: the type identifier of the component
it renders and its React key. -/
structure TabData where
  typeName : String
  key : String
deriving DecidableEq, Repr

/-- A tab-state value: groups of tabs plus the raw widths list (the code
carries the parsed widths array through unchanged, so entries stay
arbitrary JSON values; the defaults are percent strings). -/
structure TabState where
  groups : List (List TabData)
  widths : List Json

/-- The hard-coded default layout DEFAULT_TAB_STATE
(TabContainer.jsx lines 508-519): one group holding all five known
panels, widths 100 percent. -/
def DEFAULT_TAB_STATE : TabState :=
  { groups := [[⟨"Tab_Parameters", "Tab_Parameters-0"⟩,
                ⟨"Tab_InventoryTable", "Tab_InventoryTable-0"⟩,
                ⟨"Tab_ChooseShop", "Tab_ChooseShop-0"⟩,
                ⟨"Tab_ShopDetails", "Tab_ShopDetails-0"⟩,
                ⟨"Tab_AiAssistant", "Tab_AiAssistant-0"⟩]],
    widths := [Json.str "100%"] }

/-- Data content of createTabElement (TabContainer.jsx lines 560-653):
for a known tab type it creates an element rendering that component under
the given key; for an unknown or missing type it returns null. -/
def createTabElement (tabType key : String) : Option TabData :=
  if TAB_TYPE_IDENTIFIERS.contains tabType then some ⟨tabType, key⟩ else none

/-- The pre-computed DEFAULT_TAB_CONFIG (lines 656-666): the default
state mapped through createTabElement with nulls and empty groups
filtered out. -/
def DEFAULT_TAB_CONFIG : TabState :=
  { groups := (DEFAULT_TAB_STATE.groups.map fun g =>
        g.filterMap fun t => createTabElement t.typeName t.key).filter
      (fun g => !g.isEmpty),
    widths := DEFAULT_TAB_STATE.widths }

/-- String the width-regeneration branch writes for an equal share,
the percent of 100 divided by the group count (line 696). The JavaScript
division is on floating-point numbers; this integer rendering coincides
with it exactly when the group count divides 100, and no theorem below
depends on this branch. -/
def jsPercentString (n : Nat) : String := toString (100 / n) ++ "%"

/-- Data content of one tab taken from a saved config inside
createTabsFromConfig (lines 678-684): known types become elements, null
otherwise. The call site only reaches this after validation, so tab.type
and tab.key are strings there. -/
def tabFromJson (tab : Json) : Option TabData :=
  match tab.getField "type", tab.getField "key" with
  | some (Json.str t), some (Json.str k) => createTabElement t k
  | _, _ => none

/-- Embedding of createTabsFromConfig (TabContainer.jsx lines 669-704):
map every group through tabFromJson dropping nulls, drop empty groups,
fall back to the default config when nothing remains, and regenerate the
widths when their count does not match the group count. -/
def createTabsFromConfig (parsed : Json) : TabState :=
  let processedGroups :=
    ((jsonGroups parsed).map fun g =>
        match g with
        | Json.arr tabs => tabs.filterMap tabFromJson
        | _ => []).filter fun g => !g.isEmpty
  if processedGroups.isEmpty then DEFAULT_TAB_CONFIG
  else
    let widths :=
      if (jsonWidths parsed).length != processedGroups.length then
        (List.range processedGroups.length).map fun i =>
          if i == processedGroups.length - 1 then Json.str "100%"
          else Json.str (jsPercentString processedGroups.length)
      else jsonWidths parsed
    { groups := processedGroups, widths := widths }

/-- Result of localStorage.getItem plus JSON.parse on the storage key:
absent models a null or empty stored value (falsy, lines 814-818),
invalidJson a stored string JSON.parse throws on (caught at lines
877-880), parsed a successfully parsed value. -/
inductive StoredBlob where
  | absent
  | invalidJson
  | parsed (j : Json)

/-- The three sequential validation stages of the loading effect
(lines 825-864) combined. -/
def isValidParsedState (p : Json) : Bool :=
  (p.truthy && jsonIsArray (p.getField "groups") &&
    jsonIsArray (p.getField "widths")) &&
  validGroupsStructure (jsonGroups p) && validGroupsTypes (jsonGroups p)

/-- A stored blob passing every load-time check. -/
def isValidBlob : StoredBlob → Bool
  | .parsed p => isValidParsedState p
  | _ => false

/-- Embedding of the tab-state loading effect
(TabContainer.jsx lines 809-881): missing blob, parse error, failed
structure validation, failed type validation, and an empty rebuilt state
all fall back to the pre-computed default config; otherwise the state is
rebuilt from the parsed config. -/
def loadTabState : StoredBlob → TabState
  | .absent => DEFAULT_TAB_CONFIG
  | .invalidJson => DEFAULT_TAB_CONFIG
  | .parsed p =>
      if !(p.truthy && jsonIsArray (p.getField "groups") &&
            jsonIsArray (p.getField "widths")) then DEFAULT_TAB_CONFIG
      else if !validGroupsStructure (jsonGroups p) then DEFAULT_TAB_CONFIG
      else if !validGroupsTypes (jsonGroups p) then DEFAULT_TAB_CONFIG
      else
        let newState := createTabsFromConfig p
        if !newState.groups.isEmpty then newState else DEFAULT_TAB_CONFIG

/-- displayName attributes of the five tab components, read by the save
path (line 920). Tab_InventoryTable, Tab_ChooseShop and Tab_AiAssistant
set theirs in the sources under src (Inventory Table, Choose Shop, The
Oracle). Modelled from the spec: the source files of Tab_Parameters and
Tab_ShopDetails are not in the repository snapshot; the round-trip
property of spec section 8 requires the save-path lookup to resolve every
component to its own identifier, so their displayName values are modelled
as defined strings distinct from every other displayName. -/
def displayNameOf : String → Option String
  | "Tab_Parameters" => some "Parameters"
  | "Tab_InventoryTable" => some "Inventory Table"
  | "Tab_ChooseShop" => some "Choose Shop"
  | "Tab_ShopDetails" => some "Shop Details"
  | "Tab_AiAssistant" => some "The Oracle"
  | _ => none

/-- Data content of one mounted tab element as the save path sees it:
componentTag models the identity of element.type (the component function,
which also carries this string as its name property), displayName its
displayName property. -/
structure TabElement where
  componentTag : String
  displayName : Option String
  key : String
deriving DecidableEq, Repr

/-- The matching-type lookup of the save path (lines 918-921): the first
identifier whose component is the element type, or whose displayName
strictly equals the element displayName; undefined strictly equals
undefined in JavaScript, which Option equality models. -/
def findMatchingType (tab : TabElement) : Option String :=
  TAB_TYPE_IDENTIFIERS.find? fun t =>
    t == tab.componentTag || displayNameOf t == tab.displayName

/-- One serialized tab (lines 927-930): the matched identifier, falling
back to the name property of the element type. -/
def serializeTab (tab : TabElement) : TabData :=
  { typeName := (findMatchingType tab).getD tab.componentTag, key := tab.key }

/-- Embedding of the saveState effect (TabContainer.jsx lines 910-965):
extract identifier and key per tab, skip the save entirely when any
extracted type is unknown, otherwise store the JSON envelope of groups
and widths. -/
def saveTabGroups (groups : List (List TabElement)) (widths : List Json) :
    Option Json :=
  let groupsData := groups.map fun g => g.map serializeTab
  if !(groupsData.all fun g =>
        g.all fun t => TAB_TYPE_IDENTIFIERS.contains t.typeName) then none
  else
    some (Json.obj
      [("groups", Json.arr (groupsData.map fun g =>
          Json.arr (g.map fun t =>
            Json.obj [("type", Json.str t.typeName), ("key", Json.str t.key)]))),
       ("widths", Json.arr widths)])

/-- The mounted elements of the default config: each default tab rendered
by its component, carrying that component identity and displayName. -/
def defaultTabElements : List (List TabElement) :=
  DEFAULT_TAB_CONFIG.groups.map fun g =>
    g.map fun t => ⟨t.typeName, displayNameOf t.typeName, t.key⟩

end Persist

namespace TabDnD

/-- Cached bounding box of one tab at drag start
(TabContainer.jsx lines 121-129). -/
structure TabGeometry where
  left : Int
  right : Int
  width : Int
  center : Int
deriving DecidableEq, Repr

/-- The type property object of a tab value; only its name matters to the
drag handlers. A tab whose type is missing carries none. -/
structure TabTypeValue where
  name : String
deriving DecidableEq, Repr

/-- A tab value as handleDragStart receives it: none models a null tab. -/
structure DraggedTabValue where
  type : Option TabTypeValue
  key : String
deriving DecidableEq, Repr

/-- The three dataTransfer entries handleDragStart writes
(lines 133-139). -/
structure DragTransferData where
  textPlainIndex : Nat
  groupIndexEntry : Int
  tabInfo : TabInfo
deriving DecidableEq, Repr

/-- Observable effects of one handleDragStart invocation: the geometry
snapshot written to originalPositions, the onDragStart callback opening
the shared drag session, and the dataTransfer entries. -/
structure DragStartEffects where
  snapshotTaken : Option (List TabGeometry)
  sessionOpened : Option (String × Nat)
  transferSet : Option DragTransferData
deriving DecidableEq, Repr

/-- No-effect outcome: nothing cached, no session, no transfer data. -/
def noDragStartEffects : DragStartEffects := ⟨none, none, none⟩

/-- Embedding of handleDragStart (TabContainer.jsx lines 114-140): a null
tab or a tab without a type returns before any effect; otherwise the
sibling geometry is cached, onDragStart is invoked with the tab and
index, and the three dataTransfer entries are written. -/
def handleDragStart (tab : Option DraggedTabValue) (index : Nat)
    (groupIndex : Int) (geometry : List TabGeometry) : DragStartEffects :=
  match tab with
  | none => noDragStartEffects
  | some t =>
      match t.type with
      | none => noDragStartEffects
      | some ty =>
          { snapshotTaken := some geometry,
            sessionOpened := some (t.key, index),
            transferSet := some
              ⟨index, groupIndex, ⟨ty.name, Int.ofNat index, t.key⟩⟩ }

end TabDnD

/-- C1 counterexample: in a group that is both first and last inside a
container only 60 px wide (narrower than twice the 40 px edge threshold),
a drag-over at mouseX = 30 arms both leftGroup and rightGroup at once, so
the computed indicator state does not have at most one non-null field. -/
theorem c1_two_indicators_armed_counterexample :
    ¬ TabDnD.armedCount
        (TabDnD.computeIndicators false true true 30 0 60 0) ≤ 1 := by
  decide

/-- C1 (amended): whenever the target container is at least twice the
40 px edge threshold wide, the indicator state computed by handleDragOver
has at most one of leftGroup, rightGroup, betweenGroups non-null. -/
theorem c1_at_most_one_indicator_armed
    (isOverHeader isFirstGroup isLastGroup : Bool)
    (mouseX containerLeft containerRight groupIndex : Int)
    (hwide : 2 * TabDnD.edgeThreshold ≤ containerRight - containerLeft) :
    TabDnD.armedCount
      (TabDnD.computeIndicators isOverHeader isFirstGroup isLastGroup
        mouseX containerLeft containerRight groupIndex) ≤ 1 := by
  have hw : (80 : Int) ≤ containerRight - containerLeft := by
    simpa [TabDnD.edgeThreshold] using hwide
  cases isOverHeader <;> cases isFirstGroup <;> cases isLastGroup <;>
    simp only [TabDnD.computeIndicators, TabDnD.armedCount, TabDnD.edgeThreshold] <;>
    split_ifs <;> simp_all <;> omega

/-- C1 witness: the amended theorem applied at a concrete 100 px wide
container. -/
theorem c1_at_most_one_indicator_armed_witness :
    2 * TabDnD.edgeThreshold ≤ (100 : Int) - 0 ∧
    TabDnD.armedCount
      (TabDnD.computeIndicators false true true 10 0 100 0) ≤ 1 :=
  ⟨by decide, c1_at_most_one_indicator_armed false true true 10 0 100 0 (by decide)⟩

/-- Helper: unfolding moveTab when the source index is in range. -/
theorem moveTab_eq_of_getElem {α : Type} {l : List α} {i : Nat} {x : α}
    (h : l[i]? = some x) (j : Nat) :
    TabDnD.moveTab l i j = (l.eraseIdx i).insertIdx j x := by
  unfold TabDnD.moveTab
  rw [h]

/-- Helper: reinserting the element removed at index i back at index i
restores the list. -/
theorem insertIdx_getElem_eraseIdx {α : Type} :
    ∀ (l : List α) (i : Nat) (x : α), l[i]? = some x →
      (l.eraseIdx i).insertIdx i x = l
  | [], i, x, h => by simp at h
  | a :: t, 0, x, h => by
      simp only [List.getElem?_cons_zero, Option.some.injEq] at h
      simp [h]
  | a :: t, i + 1, x, h => by
      simp only [List.getElem?_cons_succ] at h
      simp only [List.eraseIdx_cons_succ, List.insertIdx_succ_cons,
        insertIdx_getElem_eraseIdx t i x h]

/-- C2: once the drag payload parses, a drop whose betweenGroups indicator
equals the target group always resolves to the between-groups split, and
the within-group reorder branch can only run when no indicator is armed
for this group, the source group equals the target group, and dropIndex
is non-null and differs from sourceIndex: the precedence order is
first-match. -/
theorem c2_drop_precedence (ctx : TabDnD.DropContext) (p : TabDnD.DropPayload)
    (info : TabDnD.TabInfo) (hparse : p.tabInfoField = some info) :
    (ctx.indicators.betweenGroups = some ctx.groupIndex →
      (TabDnD.handleDrop ctx p).action =
        some (TabDnD.DropAction.splitBetween info p.sourceGroupField ctx.groupIndex)) ∧
    (∀ si di, (TabDnD.handleDrop ctx p).action =
        some (TabDnD.DropAction.reorder si di ctx.groupIndex) →
      ctx.indicators.betweenGroups ≠ some ctx.groupIndex ∧
      ctx.indicators.leftGroup ≠ some ctx.groupIndex ∧
      ctx.indicators.rightGroup ≠ some ctx.groupIndex ∧
      p.sourceGroupField = some ctx.groupIndex ∧
      ctx.dropIndex.isSome = true) := by
  unfold TabDnD.handleDrop
  rw [hparse]
  unfold TabDnD.resolveDrop
  constructor
  · intro hb
    simp [hb]
  · intro si di h
    simp only [Option.some.injEq] at h
    split_ifs at h with h1 h2 h3 h4
    refine ⟨?_, ?_, ?_, ?_, ?_⟩
    · intro hb; exact h1 (by simp [hb])
    · intro hb; exact h2 (by simp [hb])
    · intro hb; exact h2 (by simp [hb])
    · cases hg : p.sourceGroupField with
      | none => exact absurd (by simp [TabDnD.jsNumNeq, hg]) h3
      | some v =>
          have hv : v = ctx.groupIndex := by
            by_contra hne
            exact h3 (by simp [TabDnD.jsNumNeq, hg, hne])
          rw [hv]
    · rcases Bool.and_eq_true _ _ |>.mp h4 with ⟨_, hs⟩
      exact hs

/-- C2 witness: a concrete drop with the betweenGroups indicator armed for
the target group resolves to the between-groups split. -/
theorem c2_drop_precedence_witness :
    (TabDnD.handleDrop ⟨0, ⟨none, none, some 0⟩, some 1, 3⟩
        ⟨some 0, some 0, some ⟨"Tab_Parameters", 0, "k0"⟩⟩).action =
      some (TabDnD.DropAction.splitBetween ⟨"Tab_Parameters", 0, "k0"⟩ (some 0) 0) :=
  (c2_drop_precedence ⟨0, ⟨none, none, some 0⟩, some 1, 3⟩
    ⟨some 0, some 0, some ⟨"Tab_Parameters", 0, "k0"⟩⟩
    ⟨"Tab_Parameters", 0, "k0"⟩ rfl).1 rfl

/-- C8: the within-group reorder splice pair is its own inverse for valid
indices, and in a group of three tabs A, B, C, dragging A to index 2
yields B, C, A. -/
theorem c8_reorder_involutive :
    (∀ (l : List String) (i j : Nat), i < l.length → j < l.length →
        TabDnD.moveTab (TabDnD.moveTab l i j) j i = l) ∧
    TabDnD.moveTab ["A", "B", "C"] 0 2 = ["B", "C", "A"] := by
  constructor
  · intro l i j hi hj
    have hgi : l[i]? = some l[i] := List.getElem?_eq_getElem hi
    have hjle : j ≤ (l.eraseIdx i).length := by
      rw [List.length_eraseIdx]
      split <;> omega
    have hins : ((l.eraseIdx i).insertIdx j l[i])[j]? = some l[i] := by
      have hlt : j < ((l.eraseIdx i).insertIdx j l[i]).length := by
        rw [List.length_insertIdx _ _ hjle]
        omega
      rw [List.getElem?_eq_getElem hlt]
      exact congrArg some (List.getElem_insertIdx_self (l.eraseIdx i) l[i] j hjle)
    rw [moveTab_eq_of_getElem hgi j, moveTab_eq_of_getElem hins i,
      List.eraseIdx_insertIdx, insertIdx_getElem_eraseIdx l i l[i] hgi]
  · decide

/-- C8 witness: the involution applied to the concrete three-tab group. -/
theorem c8_reorder_involutive_witness :
    (0 : Nat) < (["A", "B", "C"] : List String).length ∧
    (2 : Nat) < (["A", "B", "C"] : List String).length ∧
    TabDnD.moveTab (TabDnD.moveTab ["A", "B", "C"] 0 2) 2 0 = ["A", "B", "C"] :=
  ⟨by decide, by decide,
    c8_reorder_involutive.1 ["A", "B", "C"] 0 2 (by decide) (by decide)⟩

/-- C9 counterexample: a drop whose groupIndex transfer field is missing
(parseInt gives NaN) but whose tabInfo entry is intact does not abort: the
handler reaches the cross-group move branch, because NaN compares unequal
to the target group index, so a layout mutation is invoked. -/
theorem c9_missing_group_field_still_mutates :
    (TabDnD.handleDrop ⟨0, ⟨none, none, none⟩, some 1, 3⟩
        ⟨some 0, none, some ⟨"Tab_Parameters", 0, "k0"⟩⟩).threw = false ∧
    (TabDnD.handleDrop ⟨0, ⟨none, none, none⟩, some 1, 3⟩
        ⟨some 0, none, some ⟨"Tab_Parameters", 0, "k0"⟩⟩).action =
      some (TabDnD.DropAction.moveAcross 1 none 0) := by
  constructor <;> rfl

/-- C9 (amended): when the tabInfo transfer entry is missing or
unparsable, JSON.parse throws and the drop handler aborts before clearing
indicators and before invoking any mutation callback; the drag session is
still cleared by the separate dragend handler. Missing numeric fields
(text/plain, groupIndex) parse to NaN and do not abort the handler. -/
theorem c9_malformed_tabinfo_aborts (ctx : TabDnD.DropContext)
    (p : TabDnD.DropPayload) (h : p.tabInfoField = none)
    (s : TabDnD.DragSessionState) :
    (TabDnD.handleDrop ctx p).threw = true ∧
    (TabDnD.handleDrop ctx p).action = none ∧
    (TabDnD.handleDrop ctx p).indicatorsCleared = false ∧
    (TabDnD.handleDragEnd s).dragActive = false ∧
    (TabDnD.handleDragEnd s).windowDraggedTabSet = false := by
  simp [TabDnD.handleDrop, h, TabDnD.handleDragEnd]

/-- C3: the code does not cancel the pending debounced indicator update on
drag-end or drag-leave (only the never-armed edgeHoldTimeout ref is
cleared), so an update scheduled before the session closed still fires
afterwards: after the trace schedule, drag-end, timer-fire the session is
closed yet the stale indicators are applied, and likewise a drag-leave
clear is overwritten by the stale pending value when the timer fires. -/
theorem c3_stale_indicator_after_session_end :
    (TabDnD.runDragUI ⟨none, false, ⟨none, none, none⟩, true⟩
        [TabDnD.DragUIEvent.dragOverSchedules ⟨some 0, none, none⟩,
         TabDnD.DragUIEvent.dragEndEvent,
         TabDnD.DragUIEvent.debounceFires]).dragActive = false ∧
    (TabDnD.runDragUI ⟨none, false, ⟨none, none, none⟩, true⟩
        [TabDnD.DragUIEvent.dragOverSchedules ⟨some 0, none, none⟩,
         TabDnD.DragUIEvent.dragEndEvent,
         TabDnD.DragUIEvent.debounceFires]).indicators = ⟨some 0, none, none⟩ ∧
    (TabDnD.runDragUI ⟨none, false, ⟨none, none, none⟩, true⟩
        [TabDnD.DragUIEvent.dragOverSchedules ⟨some 0, none, none⟩,
         TabDnD.DragUIEvent.dragLeaveOutside,
         TabDnD.DragUIEvent.debounceFires]).indicators = ⟨some 0, none, none⟩ :=
  ⟨rfl, rfl, rfl⟩

/-- Helper: once the pointer is at or right of the previous center, the
window scan of handleDragOver returns the first index whose center is
strictly right of the pointer. -/
theorem scanCenters_eq_firstCenterIdx (relativeX headerLeft : Int) :
    ∀ (cs : List Int) (prev : Int) (i dflt : Nat),
      ¬ relativeX < prev - headerLeft →
      TabDnD.scanCenters relativeX headerLeft prev cs i dflt =
        TabDnD.firstCenterIdx (fun c => decide (relativeX < c - headerLeft)) cs i dflt
  | [], _, _, _, _ => rfl
  | c :: cs, prev, i, dflt, hprev => by
      by_cases hc : relativeX < c - headerLeft
      · simp [TabDnD.scanCenters, TabDnD.firstCenterIdx, hc, not_lt.mp hprev]
      · simp only [TabDnD.scanCenters, TabDnD.firstCenterIdx, hc, decide_False,
          and_false, if_false, if_neg (by simp [hc] : ¬ (prev - headerLeft ≤ relativeX ∧ relativeX < c - headerLeft))]
        exact scanCenters_eq_firstCenterIdx relativeX headerLeft cs c (i + 1) dflt hc

/-- C4 counterexample: with cached centers 10 and 20 (header left edge at
0) and the pointer exactly on the first center (local x = 10), the code
computes insertion index 1, while the first position whose cached center
is greater than or equal to the pointer x is 0: the claimed
characterisation uses the wrong comparison at the boundary. -/
theorem c4_boundary_counterexample :
    TabDnD.computeDropIndex 10 0 [10, 20] 2 = 1 ∧
    TabDnD.claimedDropIndex 10 0 [10, 20] 2 = 0 ∧
    TabDnD.computeDropIndex 10 0 [10, 20] 2 ≠
      TabDnD.claimedDropIndex 10 0 [10, 20] 2 := by
  refine ⟨rfl, rfl, ?_⟩
  decide

/-- C4 (amended): for every drag-over the computed insertion index equals
the first position whose cached center is strictly greater than the
pointer local x, clamped to the tab count: index 0 when the pointer is
strictly left of the first cached center, and the tab count when the
pointer is at or right of all cached centers. -/
theorem c4_drop_index_first_center_gt (mouseX headerLeft : Int)
    (centers : List Int) (numTabs : Nat) :
    TabDnD.computeDropIndex mouseX headerLeft centers numTabs =
      min (TabDnD.firstCenterIdx
            (fun c => decide (mouseX - headerLeft < c - headerLeft))
            centers 0 numTabs) numTabs := by
  cases centers with
  | nil => rfl
  | cons c0 cs =>
      by_cases h0 : mouseX - headerLeft < c0 - headerLeft
      · simp [TabDnD.computeDropIndex, TabDnD.firstCenterIdx, h0]
      · have hp : decide (mouseX - headerLeft < c0 - headerLeft) ≠ true := by
          simp [h0]
        unfold TabDnD.computeDropIndex TabDnD.firstCenterIdx
        dsimp only
        rw [if_neg h0, if_neg hp,
          scanCenters_eq_firstCenterIdx (mouseX - headerLeft) headerLeft cs c0 1 numTabs h0]

/-- Helper: the key bag of a cons layout. -/
theorem keyBag_cons (g : List String) (L : LayoutStore.Layout) :
    LayoutStore.keyBag (g :: L) =
      (g : Multiset String) + LayoutStore.keyBag L := by
  unfold LayoutStore.keyBag
  rw [List.flatten_cons]
  exact (Multiset.coe_add _ _).symm

/-- Helper: replacing group g by v exchanges exactly the keys of that
group in the key bag. -/
theorem keyBag_set :
    ∀ (L : LayoutStore.Layout) (g : Nat) (v grp : List String),
      L[g]? = some grp →
      LayoutStore.keyBag (L.set g v) + (grp : Multiset String) =
        LayoutStore.keyBag L + (v : Multiset String)
  | [], _, _, _, h => by simp at h
  | a :: t, 0, v, grp, h => by
      simp only [List.getElem?_cons_zero, Option.some.injEq] at h
      subst h
      simp only [List.set]
      rw [keyBag_cons, keyBag_cons]
      abel
  | a :: t, g + 1, v, grp, h => by
      simp only [List.getElem?_cons_succ] at h
      simp only [List.set]
      rw [keyBag_cons, keyBag_cons, add_assoc, add_assoc,
        keyBag_set t g v grp h]

/-- Helper: dropping empty groups does not change the key bag. -/
theorem keyBag_filter_nonempty :
    ∀ L : LayoutStore.Layout,
      LayoutStore.keyBag (L.filter fun grp => !grp.isEmpty) =
        LayoutStore.keyBag L
  | [] => rfl
  | g :: t => by
      rw [List.filter_cons]
      by_cases hg : g.isEmpty
      · rw [if_neg (by simp [hg]), keyBag_filter_nonempty t, keyBag_cons,
          List.isEmpty_iff.mp hg]
        simp
      · rw [if_pos (by simp [hg]), keyBag_cons, keyBag_cons,
          keyBag_filter_nonempty t]

/-- Helper: inserting a group at a valid position adds its keys to the
key bag. -/
theorem keyBag_insertIdx :
    ∀ (L : LayoutStore.Layout) (n : Nat) (v : List String), n ≤ L.length →
      LayoutStore.keyBag (L.insertIdx n v) =
        LayoutStore.keyBag L + (v : Multiset String)
  | L, 0, v, _ => by
      rw [List.insertIdx_zero, keyBag_cons]
      exact add_comm _ _
  | [], n + 1, v, h => by simp at h
  | a :: t, n + 1, v, h => by
      rw [List.insertIdx_succ_cons, keyBag_cons, keyBag_cons,
        keyBag_insertIdx t n v (by simpa using h), add_assoc]

/-- Helper: a list with an element inserted at a valid index is, as a
multiset, the element added to the original. -/
theorem coe_insertIdx_elem {l : List String} {n : Nat} (x : String)
    (h : n ≤ l.length) :
    ((l.insertIdx n x : List String) : Multiset String) =
      x ::ₘ (l : Multiset String) := by
  rw [Multiset.coe_eq_coe.mpr (List.perm_insertIdx x l h), Multiset.cons_coe]

/-- Helper: erasing a present element removes it from the multiset. -/
theorem coe_erase_elem {l : List String} {x : String} (h : x ∈ l) :
    (l : Multiset String) = x ::ₘ (l.erase x : Multiset String) := by
  rw [Multiset.coe_eq_coe.mpr (List.perm_cons_erase h), Multiset.cons_coe]

/-- Helper: removing the element at a valid index splits the multiset. -/
theorem coe_eraseIdx_elem :
    ∀ (l : List String) (i : Nat) (x : String), l[i]? = some x →
      (l : Multiset String) = x ::ₘ (l.eraseIdx i : Multiset String)
  | [], _, _, h => by simp at h
  | a :: t, 0, x, h => by
      simp only [List.getElem?_cons_zero, Option.some.injEq] at h
      subst h
      rw [List.eraseIdx_cons_zero, Multiset.cons_coe]
  | a :: t, i + 1, x, h => by
      simp only [List.getElem?_cons_succ] at h
      rw [List.eraseIdx_cons_succ, ← Multiset.cons_coe, ← Multiset.cons_coe,
        coe_eraseIdx_elem t i x h, Multiset.cons_swap]

/-- Helper: set at i and read at a different index j sees the original. -/
theorem getElem?_set_of_ne :
    ∀ (l : LayoutStore.Layout) (i j : Nat) (v : List String), i ≠ j →
      (l.set i v)[j]? = l[j]?
  | [], _, _, _, _ => by simp
  | a :: t, 0, 0, v, hne => absurd rfl hne
  | a :: t, 0, j + 1, v, _ => by simp [List.set]
  | a :: t, i + 1, 0, v, _ => by simp [List.set]
  | a :: t, i + 1, j + 1, v, hne => by
      simp only [List.set, List.getElem?_cons_succ]
      exact getElem?_set_of_ne t i j v (by omega)

/-- Helper: every single LayoutStore operation preserves the key bag. -/
theorem applyOp_keyBag (L : LayoutStore.Layout) (op : LayoutStore.LayoutOp) :
    LayoutStore.keyBag (LayoutStore.applyOp L op) = LayoutStore.keyBag L := by
  cases op with
  | reorder g i j =>
      cases hL : L[g]? with
      | none => simp [LayoutStore.applyOp, LayoutStore.reorderWithinGroup, hL]
      | some grp =>
          cases hi : grp[i]? with
          | none =>
              simp [LayoutStore.applyOp, LayoutStore.reorderWithinGroup, hL, hi]
          | some x =>
              by_cases hj : j < grp.length
              · simp only [LayoutStore.applyOp, LayoutStore.reorderWithinGroup,
                  hL, hi, if_pos hj]
                have hilen : i < grp.length := (List.getElem?_eq_some.mp hi).1
                have hjle : j ≤ (grp.eraseIdx i).length := by
                  rw [List.length_eraseIdx]
                  split <;> omega
                have hv : (((grp.eraseIdx i).insertIdx j x : List String) :
                    Multiset String) = (grp : Multiset String) := by
                  rw [coe_insertIdx_elem x hjle, ← coe_eraseIdx_elem grp i x hi]
                have hs := keyBag_set L g ((grp.eraseIdx i).insertIdx j x) grp hL
                rw [hv] at hs
                exact add_right_cancel hs
              · simp [LayoutStore.applyOp, LayoutStore.reorderWithinGroup,
                  hL, hi, hj]
  | move key sg tg ti =>
      cases hsg : L[sg]? with
      | none => simp [LayoutStore.applyOp, LayoutStore.moveAcrossGroups, hsg]
      | some src =>
          cases htg : L[tg]? with
          | none =>
              simp [LayoutStore.applyOp, LayoutStore.moveAcrossGroups, hsg, htg]
          | some tgt =>
              by_cases hc : sg ≠ tg ∧ key ∈ src
              · simp only [LayoutStore.applyOp, LayoutStore.moveAcrossGroups,
                  hsg, htg, if_pos hc]
                rw [keyBag_filter_nonempty]
                have htg' : (L.set sg (src.erase key))[tg]? = some tgt := by
                  rw [getElem?_set_of_ne L sg tg (src.erase key) hc.1, htg]
                have eq1 := keyBag_set (L.set sg (src.erase key)) tg
                  (tgt.insertIdx (min ti tgt.length) key) tgt htg'
                have eq2 := keyBag_set L sg (src.erase key) src hsg
                rw [coe_insertIdx_elem key (min_le_right _ _),
                  ← Multiset.singleton_add] at eq1
                rw [coe_erase_elem hc.2, ← Multiset.singleton_add] at eq2
                have eq2' : LayoutStore.keyBag (L.set sg (src.erase key)) +
                    ({key} : Multiset String) = LayoutStore.keyBag L := by
                  rw [← add_assoc] at eq2
                  exact add_right_cancel eq2
                rw [← add_assoc] at eq1
                have := add_right_cancel eq1
                rw [this, eq2']
              · simp [LayoutStore.applyOp, LayoutStore.moveAcrossGroups,
                  hsg, htg, hc]
  | split key sg pos =>
      cases hsg : L[sg]? with
      | none => simp [LayoutStore.applyOp, LayoutStore.splitGroup, hsg]
      | some src =>
          by_cases hk : key ∈ src
          · simp only [LayoutStore.applyOp, LayoutStore.splitGroup, hsg,
              if_pos hk]
            rw [keyBag_insertIdx _ _ _ (min_le_right _ _),
              keyBag_filter_nonempty, Multiset.coe_singleton]
            have eq2 := keyBag_set L sg (src.erase key) src hsg
            rw [coe_erase_elem hk, ← Multiset.singleton_add, ← add_assoc] at eq2
            exact add_right_cancel eq2
          · simp [LayoutStore.applyOp, LayoutStore.splitGroup, hsg, hk]

/-- Helper: any operation sequence preserves the key bag. -/
theorem applyOps_keyBag :
    ∀ (ops : List LayoutStore.LayoutOp) (L : LayoutStore.Layout),
      LayoutStore.keyBag (LayoutStore.applyOps L ops) = LayoutStore.keyBag L
  | [], _ => rfl
  | op :: ops, L => by
      show LayoutStore.keyBag (LayoutStore.applyOps (LayoutStore.applyOp L op) ops) = _
      rw [applyOps_keyBag ops (LayoutStore.applyOp L op), applyOp_keyBag]

/-- C5: from any initial layout in which every panel key appears exactly
once, every layout reachable by a sequence of reorder, cross-group move,
and split operations again holds every panel key exactly once: the flat
key list stays duplicate-free and every key keeps its multiplicity (so a
key present once stays present exactly once, and no key appears that was
not there before). -/
theorem c5_membership_invariant (ops : List LayoutStore.LayoutOp)
    (L0 : LayoutStore.Layout) (h : L0.flatten.Nodup) :
    ((LayoutStore.applyOps L0 ops).flatten).Nodup ∧
    ∀ k, ((LayoutStore.applyOps L0 ops).flatten).count k =
      (L0.flatten).count k := by
  have hbag := applyOps_keyBag ops L0
  have hperm : List.Perm (LayoutStore.applyOps L0 ops).flatten L0.flatten :=
    Multiset.coe_eq_coe.mp hbag
  exact ⟨hperm.nodup_iff.mpr h, fun k => hperm.count_eq k⟩

/-- C5 witness: the invariant applied to a concrete two-group layout and
a concrete operation sequence containing a move and a split. -/
theorem c5_membership_invariant_witness :
    (([["A", "B"], ["C"]] : LayoutStore.Layout).flatten).Nodup ∧
    ((LayoutStore.applyOps [["A", "B"], ["C"]]
        [LayoutStore.LayoutOp.move "A" 0 1 0,
         LayoutStore.LayoutOp.split "C" 1 2]).flatten).Nodup ∧
    ((LayoutStore.applyOps [["A", "B"], ["C"]]
        [LayoutStore.LayoutOp.move "A" 0 1 0,
         LayoutStore.LayoutOp.split "C" 1 2]).flatten).count "A" =
      (([["A", "B"], ["C"]] : LayoutStore.Layout).flatten).count "A" :=
  ⟨by decide,
    (c5_membership_invariant [LayoutStore.LayoutOp.move "A" 0 1 0,
      LayoutStore.LayoutOp.split "C" 1 2] [["A", "B"], ["C"]] (by decide)).1,
    (c5_membership_invariant [LayoutStore.LayoutOp.move "A" 0 1 0,
      LayoutStore.LayoutOp.split "C" 1 2] [["A", "B"], ["C"]] (by decide)).2 "A"⟩

/-- C6: every stored blob that is absent, not valid JSON, or that fails
any structural or type validation loads as the hard-coded default layout
(which is exactly DEFAULT_TAB_STATE: a single group with all five known
default panels and widths of one hundred percent), with no partial
state. -/
theorem c6_invalid_blob_loads_default (blob : Persist.StoredBlob)
    (h : Persist.isValidBlob blob = false) :
    Persist.loadTabState blob = Persist.DEFAULT_TAB_CONFIG ∧
    Persist.DEFAULT_TAB_CONFIG = Persist.DEFAULT_TAB_STATE := by
  refine ⟨?_, rfl⟩
  cases blob with
  | absent => rfl
  | invalidJson => rfl
  | parsed p =>
      unfold Persist.isValidBlob Persist.isValidParsedState at h
      unfold Persist.loadTabState
      dsimp only at h ⊢
      split_ifs with h1 h2 h3 h4
      · rfl
      · rfl
      · rfl
      · exfalso
        simp_all
      · rfl

/-- C6 witness: a blob whose groups entry is a number fails validation
and loads the default layout. -/
theorem c6_invalid_blob_loads_default_witness :
    Persist.isValidBlob
      (Persist.StoredBlob.parsed (Persist.Json.obj
        [("groups", Persist.Json.num 5)])) = false ∧
    Persist.loadTabState
      (Persist.StoredBlob.parsed (Persist.Json.obj
        [("groups", Persist.Json.num 5)])) = Persist.DEFAULT_TAB_CONFIG :=
  ⟨rfl,
    (c6_invalid_blob_loads_default
      (Persist.StoredBlob.parsed (Persist.Json.obj
        [("groups", Persist.Json.num 5)])) rfl).1⟩

/-- C7: serializing the default layout through the saveState effect
produces a blob (the save is not skipped), and running the load path on
that just-saved blob yields back exactly the default layout: the same
groups with the same types and keys in the same order, and the same
widths. -/
theorem c7_persistence_roundtrip :
    (Persist.saveTabGroups Persist.defaultTabElements
        Persist.DEFAULT_TAB_CONFIG.widths).map
      (fun j => Persist.loadTabState (Persist.StoredBlob.parsed j)) =
    some Persist.DEFAULT_TAB_CONFIG := by
  rfl

/-- C10: starting a drag on a null tab value or on a tab without a type
is a complete no-op: no geometry snapshot is cached, no drag session is
opened through onDragStart, and no dataTransfer entry is written, so the
gesture can never reach a layout mutation. -/
theorem c10_invalid_drag_start_noop (tab : Option TabDnD.DraggedTabValue)
    (index : Nat) (groupIndex : Int) (geometry : List TabDnD.TabGeometry)
    (h : tab = none ∨ ∃ t, tab = some t ∧ t.type = none) :
    TabDnD.handleDragStart tab index groupIndex geometry =
      TabDnD.noDragStartEffects := by
  rcases h with h | ⟨t, ht, hty⟩
  · rw [h]
    rfl
  · rw [ht]
    unfold TabDnD.handleDragStart
    dsimp only
    rw [hty]

/-- C10 witness: the theorem at a concrete tab value with no type. -/
theorem c10_invalid_drag_start_noop_witness :
    ((some ⟨none, "k0"⟩ : Option TabDnD.DraggedTabValue) = none ∨
      ∃ t, (some ⟨none, "k0"⟩ : Option TabDnD.DraggedTabValue) = some t ∧
        t.type = none) ∧
    TabDnD.handleDragStart (some ⟨none, "k0"⟩) 0 0 [] =
      TabDnD.noDragStartEffects :=
  ⟨Or.inr ⟨⟨none, "k0"⟩, rfl, rfl⟩,
    c10_invalid_drag_start_noop (some ⟨none, "k0"⟩) 0 0 []
      (Or.inr ⟨⟨none, "k0"⟩, rfl, rfl⟩)⟩

/-- C9 witness: the amended theorem at a concrete malformed payload. -/
theorem c9_malformed_tabinfo_aborts_witness :
    (TabDnD.handleDrop ⟨0, ⟨none, none, none⟩, some 1, 3⟩
        ⟨some 0, some 1, none⟩).threw = true ∧
    (TabDnD.handleDrop ⟨0, ⟨none, none, none⟩, some 1, 3⟩
        ⟨some 0, some 1, none⟩).action = none ∧
    (TabDnD.handleDrop ⟨0, ⟨none, none, none⟩, some 1, 3⟩
        ⟨some 0, some 1, none⟩).indicatorsCleared = false ∧
    (TabDnD.handleDragEnd ⟨some 1, true, false, true⟩).dragActive = false ∧
    (TabDnD.handleDragEnd ⟨some 1, true, false, true⟩).windowDraggedTabSet = false :=
  c9_malformed_tabinfo_aborts ⟨0, ⟨none, none, none⟩, some 1, 3⟩
    ⟨some 0, some 1, none⟩ rfl ⟨some 1, true, false, true⟩
